import Mathlib

/-!
Verification of the construction escrow program (`construction_escrow/src/lib.rs`).

Shallow-embedding conventions:
- `Pubkey` is modelled as `Nat`, with `0` standing for `Pubkey::default()`.
- `u64`/`u32`/`u16`/`u8` values are `Nat` with explicit saturation (`min _ U64MAX`),
  wrap (`% U64MOD`, `% 256`) or truncated subtraction (`-` on `Nat`, which is
  exactly Rust's `saturating_sub`) where the source saturates, wraps or
  saturating-subtracts; `i64` timestamps are `Int`.
- Every fallible instruction handler becomes a function returning
  `Except EscrowError _`; an error models the host's atomic rollback, so the
  escrow account is byte-for-byte unchanged on failure.
- Outbound token transfers (`transfer_from_vault` calls) are modelled as a list
  of transfer intents `List Xfer` returned alongside the updated escrow, in the
  order the source issues them; the error path of a handler issues none.
- The vault token balance (`vault_ata.amount`) and the clock
  (`Clock::get()?.unix_timestamp`) are external inputs, passed as parameters
  `vault : Nat` and `now : Int`.
- Anchor account-validation facts: `SellerOnly` enforces `has_one = seller`
  (caller is the recorded seller) and `ArbiterResolve` enforces
  `has_one = arbiter`, so those handlers take no caller parameter; the
  `BuyerOrSeller` and `ApproveCancel` contexts declare a plain `actor : Signer`
  with no constraint tying it to the escrow, so those handlers receive the
  caller key and any checks are the ones written in the handler body.
- Escrow fields that are pure storage plumbing (`bump`, `vault_bump`, `mint`,
  `config` key, `reserved`) are omitted; the `oracles_len`/`milestones_len`
  counters together with their fixed backing arrays are modelled as the lists
  of the live slots (`oracles : List Nat`, `milestones : List Milestone`),
  whose lengths the handlers bound by `MAX_ORACLES`/`MAX_MILESTONES` exactly as
  the source bounds the counters.
-/

namespace ConstructionEscrow

/-- `u64::MAX`. -/
def U64MAX : Nat := 18446744073709551615

/-- `2^64`, the wrap modulus of release-mode `u64` arithmetic. -/
def U64MOD : Nat := 18446744073709551616

/-- `u32::MAX`. -/
def U32MAX : Nat := 4294967295

/-- `const MAX_ORACLES: usize = 8`. -/
def MAX_ORACLES : Nat := 8

/-- `const MAX_MILESTONES: usize = 10`. -/
def MAX_MILESTONES : Nat := 10

/-- `const QUORUM_MIN: u8 = 1`. -/
def QUORUM_MIN : Nat := 1

/-- `enum EscrowState` (stored as `u8` in the account; the six variants). -/
inductive EscrowState where
  | Open
  | Verified
  | PartiallyReleased
  | Released
  | Refunded
  | Dispute
deriving DecidableEq

/-- `enum DisputeOutcome`. -/
inductive DisputeOutcome where
  | Refund
  | Release
  | Split
deriving DecidableEq

/-- `#[error_code] enum EscrowError`. -/
inductive EscrowError where
  | ZeroAmount
  | BadQuorum
  | TooManyOracles
  | BadNonce
  | BadState
  | NotExpired
  | VaultBalanceLow
  | ProjectMismatch
  | QuorumNotMet
  | AlreadyVerified
  | MilestoneNotReleasable
  | BadMilestoneId
  | NothingToRelease
  | RetentionAlreadyReleased
  | WarrantyNotEnded
  | CancelAlreadyRequested
  | Unauthorized
  | CancelNotRequested
  | NoOpenDispute
  | DisputeAlreadyOpen
  | NftDisabled
  | BadNftMint
  | TooManyMilestones
  | MilestoneOverTotal
  | BadAuthorityAccept
  | Reentrancy
deriving DecidableEq

/-- `struct Milestone` (the 7 reserved padding bytes are omitted; the 32-byte
`evidence_hash` is modelled as a single `Nat`). -/
structure Milestone where
  id : Nat
  amount : Nat
  verified : Bool
  released : Bool
  verify_ts : Int
  evidence_hash : Nat
deriving DecidableEq

/-- The fields of `struct Escrow` read or written by the instruction handlers
(see the header comment for the omitted plumbing fields). -/
structure Escrow where
  project_id : Nat
  buyer : Nat
  seller : Nat
  amount : Nat
  fee_bps : Nat
  insurance_bps : Nat
  retention_bps : Nat
  late_penalty_bps : Nat
  price_snapshot_1e6 : Nat
  quorum_m : Nat
  oracles : List Nat
  state : EscrowState
  created_ts : Int
  verified_ts : Int
  released_ts : Int
  verify_by_ts : Int
  deliver_by_ts : Int
  warranty_end_ts : Int
  milestones : List Milestone
  last_evidence_hash : Nat
  last_evidence_uri96 : List Nat
  attestations_count : Nat
  cancel_requested_by : Nat
  dispute_open : Bool
  nft_enabled : Bool
  receipt_nft_mint : Nat
  in_transfer : Bool
  in_progress : Bool
  retention_released : Bool
  last_ix_nonce : Nat
deriving DecidableEq

/-- The relevant snapshot of `struct Config` read by `create_escrow`. -/
structure Config where
  fee_bps : Nat
  insurance_bps : Nat
  retention_bps : Nat
  warranty_days : Int
deriving DecidableEq

/-- One entry of `ctx.remaining_accounts` as seen by `count_quorum_votes`:
its key and its `is_signer` flag. -/
structure Candidate where
  key : Nat
  is_signer : Bool
deriving DecidableEq

/-- Destination of one `transfer_from_vault` call. -/
inductive Dest where
  | ToBuyer
  | ToSeller
  | ToTreasury
  | ToInsurance
deriving DecidableEq

/-- One outbound vault transfer intent. -/
structure Xfer where
  dest : Dest
  amount : Nat
deriving DecidableEq

/-- `fn mul_bps(amount: u64, bps: u16) -> u64 { amount.saturating_mul(bps as u64) / 10_000 }`. -/
def mul_bps (amount bps : Nat) : Nat :=
  min (amount * bps) U64MAX / 10000

/-- `fn calc_fee_splits(amount, fee_bps, insurance_bps) -> (u64, u64)`. -/
def calc_fee_splits (amount fee_bps insurance_bps : Nat) : Nat × Nat :=
  (mul_bps amount fee_bps, mul_bps amount insurance_bps)

/-- `fn calc_retention(total, retention_bps) -> u64`. -/
def calc_retention (total retention_bps : Nat) : Nat :=
  mul_bps total retention_bps

/-- The inner loop of `count_quorum_votes`: scan the oracle slots for a
non-default slot equal to `k`; the `break` after the first hit means each
candidate entry contributes at most one vote. -/
def oracleMatch (slots : List Nat) (k : Nat) : Bool :=
  slots.any (fun p => p != 0 && p == k)

/-- `fn count_quorum_votes(e, remaining) -> usize`: count the remaining
accounts that are signers and match some registered (non-default) oracle slot.
The outer loop visits every entry of `remaining`, so each entry is counted
separately. -/
def count_quorum_votes (e : Escrow) (remaining : List Candidate) : Nat :=
  remaining.foldl
    (fun votes ai => if ai.is_signer && oracleMatch e.oracles ai.key then votes + 1 else votes) 0

/-- Sum of the live milestone amounts,
`e.milestones().iter().map(|m| m.amount).sum()` as an unbounded `Nat`. -/
def milestoneSum : List Milestone → Nat
  | [] => 0
  | m :: ms => m.amount + milestoneSum ms

/-- `pub fn create_escrow`: validation checks in source order, then the field
initialisation.  The account is freshly `init`-allocated, so `last_ix_nonce`
starts at its zero default and `require!(ix_nonce > escrow.last_ix_nonce)` is
`0 < ix_nonce`; `late_penalty_bps` is never assigned by any instruction and
keeps its zero default.  The buyer→vault funding transfer is external and, per
the atomicity convention, its failure voids the whole call. -/
def createEscrow (cfg : Config) (project_id buyer seller : Nat) (amount ix_nonce : Nat)
    (oracles : List Nat) (quorum_m : Nat) (price_snapshot_1e6 : Nat) (nft_enabled : Bool)
    (now : Int) : Except EscrowError Escrow :=
  if 0 < amount then
    if QUORUM_MIN ≤ quorum_m then
      if oracles.length ≤ MAX_ORACLES then
        if 0 < ix_nonce then
          .ok { project_id := project_id
                buyer := buyer
                seller := seller
                amount := amount
                fee_bps := cfg.fee_bps
                insurance_bps := cfg.insurance_bps
                retention_bps := cfg.retention_bps
                late_penalty_bps := 0
                price_snapshot_1e6 := price_snapshot_1e6
                quorum_m := quorum_m
                oracles := oracles
                state := .Open
                created_ts := now
                verified_ts := 0
                released_ts := 0
                verify_by_ts := 0
                deliver_by_ts := 0
                warranty_end_ts := now + cfg.warranty_days * 24 * 60 * 60
                milestones := []
                last_evidence_hash := 0
                last_evidence_uri96 := List.replicate 96 0
                attestations_count := 0
                cancel_requested_by := 0
                dispute_open := false
                nft_enabled := nft_enabled
                receipt_nft_mint := 0
                in_transfer := false
                in_progress := false
                retention_released := false
                last_ix_nonce := ix_nonce }
        else .error .BadNonce
      else .error .TooManyOracles
    else .error .BadQuorum
  else .error .ZeroAmount

/-- `pub fn set_deadlines` (context `BuyerOrSeller`): the handler body never
reads `actor`, so the caller key is received but unused. -/
def setDeadlines (_actor : Nat) (e : Escrow) (verify_by_ts deliver_by_ts : Int) :
    Except EscrowError Escrow :=
  if e.state = .Open ∨ e.state = .PartiallyReleased then
    .ok { e with verify_by_ts := verify_by_ts, deliver_by_ts := deliver_by_ts }
  else .error .BadState

/-- `pub fn mark_in_progress` (context `SellerOnly`, `has_one = seller`). -/
def markInProgress (e : Escrow) : Except EscrowError Escrow :=
  .ok { e with in_progress := true }

/-- `pub fn expire_and_refund` (context `RefundBuyer`, callable by anyone). -/
def expireAndRefund (e : Escrow) (vault : Nat) (now : Int) :
    Except EscrowError (Escrow × List Xfer) :=
  if 0 < e.verify_by_ts ∧ e.verify_by_ts < now then
    if e.state = .Open then
      if e.amount ≤ vault then
        .ok ({ e with state := .Refunded, released_ts := now }, [⟨.ToBuyer, vault⟩])
      else .error .VaultBalanceLow
    else .error .BadState
  else .error .NotExpired

/-- `pub fn verify_delivery`: the `usize` vote count is compared against
`quorum_m` through a `votes as u8` cast, hence the `% 256`. -/
def verifyDelivery (e : Escrow) (project_id : Nat) (remaining : List Candidate) (now : Int) :
    Except EscrowError Escrow :=
  if e.project_id = project_id then
    if e.state = .Open ∨ e.state = .PartiallyReleased then
      if e.quorum_m ≤ count_quorum_votes e remaining % 256 then
        .ok { e with state := if e.state = .Open then .Verified else e.state,
                     verified_ts := now }
      else .error .QuorumNotMet
    else .error .BadState
  else .error .ProjectMismatch

/-- `pub fn add_milestone` (context `BuyerOrSeller`, `actor` unused by the
body): the cumulative-sum check is
`current_sum.saturating_add(amount) <= e.amount` where `current_sum` is the
release-mode (wrapping) `u64` sum of the live milestone amounts. -/
def addMilestone (_actor : Nat) (e : Escrow) (amount : Nat) (evidence_hash : Nat) :
    Except EscrowError Escrow :=
  if e.state = .Open ∨ e.state = .Verified then
    if e.milestones.length < MAX_MILESTONES then
      if min (milestoneSum e.milestones % U64MOD + amount) U64MAX ≤ e.amount then
        .ok { e with milestones := e.milestones ++
                [{ id := e.milestones.length, amount := amount, verified := false,
                   released := false, verify_ts := 0, evidence_hash := evidence_hash }] }
      else .error .MilestoneOverTotal
    else .error .TooManyMilestones
  else .error .BadState

/-- `pub fn verify_milestone`: bad-id check, then quorum, then the
already-verified check, in source order; `votes as u8` again gives `% 256`. -/
def verifyMilestone (e : Escrow) (milestone_id : Nat) (remaining : List Candidate) (now : Int) :
    Except EscrowError Escrow :=
  match e.milestones[milestone_id]? with
  | none => .error .BadMilestoneId
  | some m =>
    if e.quorum_m ≤ count_quorum_votes e remaining % 256 then
      if m.verified then .error .AlreadyVerified
      else
        .ok { e with
              milestones := e.milestones.set milestone_id
                { m with verified := true, verify_ts := now },
              state := if e.state = .Open then .Verified else e.state }
    else .error .QuorumNotMet

/-- `pub fn release_for_milestone` (context `ReleaseCommon`): id check,
releasability check, reentrancy guard (`enter_transfer`), balance check, then
the fee/penalty computation and up to four transfers in source order
(penalty→buyer, fee→treasury, insurance→insurance treasury, net→seller).
`exit_transfer` runs after the state mutation, so the successful result has
`in_transfer = false`.  Note there is no check of `e.state`. -/
def releaseForMilestone (e : Escrow) (vault : Nat) (now : Int) (milestone_id : Nat) :
    Except EscrowError (Escrow × List Xfer) :=
  match e.milestones[milestone_id]? with
  | none => .error .BadMilestoneId
  | some m =>
    if m.verified && !m.released then
      if e.in_transfer then .error .Reentrancy
      else if m.amount ≤ vault then
        let fee_cut := (calc_fee_splits m.amount e.fee_bps e.insurance_bps).1
        let insurance_cut := (calc_fee_splits m.amount e.fee_bps e.insurance_bps).2
        let seller0 := m.amount - (fee_cut + insurance_cut)
        let penalty := if 0 < e.deliver_by_ts ∧ e.deliver_by_ts < now
          then mul_bps seller0 e.late_penalty_bps else 0
        let seller_amount := seller0 - penalty
        .ok ({ e with
                milestones := e.milestones.set milestone_id { m with released := true },
                state := .PartiallyReleased,
                released_ts := now,
                in_transfer := false },
          (if 0 < penalty then [⟨.ToBuyer, penalty⟩] else []) ++
          (if 0 < fee_cut then [⟨.ToTreasury, fee_cut⟩] else []) ++
          (if 0 < insurance_cut then [⟨.ToInsurance, insurance_cut⟩] else []) ++
          (if 0 < seller_amount then [⟨.ToSeller, seller_amount⟩] else []))
      else .error .VaultBalanceLow
    else .error .MilestoneNotReleasable

/-- `pub fn release_payment` (context `ReleaseCommon`). -/
def releasePayment (e : Escrow) (vault : Nat) (now : Int) :
    Except EscrowError (Escrow × List Xfer) :=
  if e.state = .Verified ∨ e.state = .PartiallyReleased then
    let retention_due := calc_retention e.amount e.retention_bps
    let remaining := if !e.retention_released then vault - min retention_due vault else vault
    if 0 < remaining then
      if e.in_transfer then .error .Reentrancy
      else
        let fee_cut := (calc_fee_splits remaining e.fee_bps e.insurance_bps).1
        let insurance_cut := (calc_fee_splits remaining e.fee_bps e.insurance_bps).2
        let seller0 := remaining - (fee_cut + insurance_cut)
        let penalty := if 0 < e.deliver_by_ts ∧ e.deliver_by_ts < now
          then mul_bps seller0 e.late_penalty_bps else 0
        let seller_amount := seller0 - penalty
        .ok ({ e with state := .Released, released_ts := now, in_transfer := false },
          (if 0 < penalty then [⟨.ToBuyer, penalty⟩] else []) ++
          (if 0 < fee_cut then [⟨.ToTreasury, fee_cut⟩] else []) ++
          (if 0 < insurance_cut then [⟨.ToInsurance, insurance_cut⟩] else []) ++
          (if 0 < seller_amount then [⟨.ToSeller, seller_amount⟩] else []))
    else .error .NothingToRelease
  else .error .BadState

/-- `pub fn release_retention` (context `ReleaseCommon`): already-released
check, warranty-window check, balance check, reentrancy guard, then the fee
split with no late penalty; sets `retention_released` and leaves `state`
untouched. -/
def releaseRetention (e : Escrow) (vault : Nat) (now : Int) :
    Except EscrowError (Escrow × List Xfer) :=
  if e.retention_released then .error .RetentionAlreadyReleased
  else if now < e.warranty_end_ts then .error .WarrantyNotEnded
  else
    let retention := calc_retention e.amount e.retention_bps
    if retention ≤ vault then
      if e.in_transfer then .error .Reentrancy
      else
        let fee_cut := (calc_fee_splits retention e.fee_bps e.insurance_bps).1
        let insurance_cut := (calc_fee_splits retention e.fee_bps e.insurance_bps).2
        let seller_amount := retention - (fee_cut + insurance_cut)
        .ok ({ e with retention_released := true, in_transfer := false },
          (if 0 < fee_cut then [⟨.ToTreasury, fee_cut⟩] else []) ++
          (if 0 < insurance_cut then [⟨.ToInsurance, insurance_cut⟩] else []) ++
          (if 0 < seller_amount then [⟨.ToSeller, seller_amount⟩] else []))
    else .error .VaultBalanceLow

/-- `pub fn request_cancel` (context `BuyerOrSeller`): this handler does check
the caller against `buyer`/`seller` in its body. -/
def requestCancel (e : Escrow) (actor : Nat) : Except EscrowError Escrow :=
  if e.cancel_requested_by = 0 then
    if actor = e.buyer ∨ actor = e.seller then
      .ok { e with cancel_requested_by := actor }
    else .error .Unauthorized
  else .error .CancelAlreadyRequested

/-- `pub fn approve_cancel` (context `ApproveCancel`, unconstrained `actor`):
the body only checks that a cancel is pending and that the caller differs from
the requester, then refunds the whole vault balance to the buyer. -/
def approveCancel (e : Escrow) (actor : Nat) (vault : Nat) :
    Except EscrowError (Escrow × List Xfer) :=
  if e.cancel_requested_by ≠ 0 then
    if actor ≠ e.cancel_requested_by then
      if 0 < vault then
        .ok ({ e with state := .Refunded }, [⟨.ToBuyer, vault⟩])
      else .error .NothingToRelease
    else .error .Unauthorized
  else .error .CancelNotRequested

/-- `pub fn open_dispute` (context `BuyerOrSeller`, `actor` unused by the
body): the only check is that no dispute is already open; `reason_code` and
`evidence_hash` flow only into the emitted event. -/
def openDispute (e : Escrow) (_actor : Nat) (_reason_code : Nat) (_evidence_hash : Nat) :
    Except EscrowError Escrow :=
  if e.dispute_open then .error .DisputeAlreadyOpen
  else .ok { e with dispute_open := true, state := .Dispute }

/-- The `match outcome` block of `resolve_dispute` computing
`(buyer_amt, seller_amt)` from the vault total. -/
def disputeAmounts (outcome : DisputeOutcome) (total seller_pct_bps : Nat) : Nat × Nat :=
  match outcome with
  | .Refund => (total, 0)
  | .Release => (0, total)
  | .Split => (total - mul_bps total seller_pct_bps, mul_bps total seller_pct_bps)

/-- `pub fn resolve_dispute` (context `ArbiterResolve`, `has_one = arbiter`):
open-dispute check, reentrancy guard, non-zero balance check, the outcome
split, fees on the seller portion only, and the four transfers in source order
(buyer, seller net, fee, insurance). -/
def resolveDispute (e : Escrow) (vault : Nat) (now : Int) (outcome : DisputeOutcome)
    (seller_pct_bps : Nat) : Except EscrowError (Escrow × List Xfer) :=
  if e.dispute_open then
    if e.in_transfer then .error .Reentrancy
    else if 0 < vault then
      let buyer_amt := (disputeAmounts outcome vault seller_pct_bps).1
      let seller_amt := (disputeAmounts outcome vault seller_pct_bps).2
      let fee_cut := if 0 < seller_amt
        then (calc_fee_splits seller_amt e.fee_bps e.insurance_bps).1 else 0
      let insurance_cut := if 0 < seller_amt
        then (calc_fee_splits seller_amt e.fee_bps e.insurance_bps).2 else 0
      let seller_net := seller_amt - (fee_cut + insurance_cut)
      .ok ({ e with
              dispute_open := false,
              state := if 0 < seller_amt then .Released else .Refunded,
              released_ts := now,
              in_transfer := false },
        (if 0 < buyer_amt then [⟨.ToBuyer, buyer_amt⟩] else []) ++
        (if 0 < seller_net then [⟨.ToSeller, seller_net⟩] else []) ++
        (if 0 < fee_cut then [⟨.ToTreasury, fee_cut⟩] else []) ++
        (if 0 < insurance_cut then [⟨.ToInsurance, insurance_cut⟩] else []))
    else .error .NothingToRelease
  else .error .NoOpenDispute

/-- The 96-byte bounded URI copy (`short[..n].copy_from_slice(&uri[..n])`
into a zeroed buffer). -/
def pad96 (uri : List Nat) : List Nat :=
  uri.take 96 ++ List.replicate (96 - uri.length) 0

/-- `pub fn attach_evidence` (context `BuyerOrSeller`, `actor` unused). -/
def attachEvidence (_actor : Nat) (e : Escrow) (hash : Nat) (uri : List Nat) :
    Except EscrowError Escrow :=
  .ok { e with last_evidence_hash := hash, last_evidence_uri96 := pad96 uri }

/-- `pub fn add_attestation`: the only escrow mutation is the saturating `u32`
counter bump; the attestation account itself is separate storage. -/
def addAttestation (e : Escrow) (_attester : Nat) (_hash : Nat) (_uri : List Nat) :
    Except EscrowError Escrow :=
  .ok { e with attestations_count := min (e.attestations_count + 1) U32MAX }

/-- `pub fn init_receipt_nft`: the only escrow mutation is recording the mint;
the mint/freeze CPIs are external. -/
def initReceiptNft (e : Escrow) (nft_mint : Nat) : Except EscrowError Escrow :=
  if e.nft_enabled then .ok { e with receipt_nft_mint := nft_mint }
  else .error .NftDisabled

/-- `pub fn finalize_receipt_nft`: mutates no escrow field; the thaw/burn CPIs
are external. -/
def finalizeReceiptNft (e : Escrow) (nft_mint : Nat) (_burn : Bool) :
    Except EscrowError Escrow :=
  if e.state = .Released then
    if e.nft_enabled then
      if e.receipt_nft_mint = nft_mint then .ok e
      else .error .BadNftMint
    else .error .NftDisabled
  else .error .BadState

/-- `pub fn update_oracles` (context `BuyerOrSeller`, `actor` unused by the
body; no lifecycle-state check). -/
def updateOracles (_actor : Nat) (e : Escrow) (new_oracles : List Nat) (new_quorum_m : Nat) :
    Except EscrowError Escrow :=
  if new_oracles.length ≤ MAX_ORACLES then
    if QUORUM_MIN ≤ new_quorum_m then
      .ok { e with oracles := new_oracles, quorum_m := new_quorum_m }
    else .error .BadQuorum
  else .error .TooManyOracles

/-- `pub fn update_seller_dest` (context `SellerOnly`, `has_one = seller`). -/
def updateSellerDest (e : Escrow) (new_seller : Nat) : Except EscrowError Escrow :=
  .ok { e with seller := new_seller }

/-- One successful instruction applied to an existing escrow account.
`create_escrow` initialises a fresh account and is the start point of
`Reach`, not a step; `process_timeouts` and the config instructions touch no
escrow account and are omitted. -/
inductive Step : Escrow → Escrow → Prop where
  | set_deadlines (a : Nat) (e : Escrow) (v d : Int) (e' : Escrow)
      (h : setDeadlines a e v d = .ok e') : Step e e'
  | mark_in_progress (e e' : Escrow) (h : markInProgress e = .ok e') : Step e e'
  | expire_and_refund (e : Escrow) (vault : Nat) (now : Int) (p : Escrow × List Xfer)
      (h : expireAndRefund e vault now = .ok p) : Step e p.1
  | verify_delivery (e : Escrow) (pid : Nat) (cs : List Candidate) (now : Int) (e' : Escrow)
      (h : verifyDelivery e pid cs now = .ok e') : Step e e'
  | add_milestone (a : Nat) (e : Escrow) (amt h' : Nat) (e' : Escrow)
      (h : addMilestone a e amt h' = .ok e') : Step e e'
  | verify_milestone (e : Escrow) (i : Nat) (cs : List Candidate) (now : Int) (e' : Escrow)
      (h : verifyMilestone e i cs now = .ok e') : Step e e'
  | release_for_milestone (e : Escrow) (vault : Nat) (now : Int) (i : Nat)
      (p : Escrow × List Xfer) (h : releaseForMilestone e vault now i = .ok p) : Step e p.1
  | release_payment (e : Escrow) (vault : Nat) (now : Int) (p : Escrow × List Xfer)
      (h : releasePayment e vault now = .ok p) : Step e p.1
  | release_retention (e : Escrow) (vault : Nat) (now : Int) (p : Escrow × List Xfer)
      (h : releaseRetention e vault now = .ok p) : Step e p.1
  | request_cancel (e : Escrow) (a : Nat) (e' : Escrow)
      (h : requestCancel e a = .ok e') : Step e e'
  | approve_cancel (e : Escrow) (a vault : Nat) (p : Escrow × List Xfer)
      (h : approveCancel e a vault = .ok p) : Step e p.1
  | open_dispute (e : Escrow) (a rc hash : Nat) (e' : Escrow)
      (h : openDispute e a rc hash = .ok e') : Step e e'
  | resolve_dispute (e : Escrow) (vault : Nat) (now : Int) (o : DisputeOutcome) (pct : Nat)
      (p : Escrow × List Xfer) (h : resolveDispute e vault now o pct = .ok p) : Step e p.1
  | attach_evidence (a : Nat) (e : Escrow) (hash : Nat) (uri : List Nat) (e' : Escrow)
      (h : attachEvidence a e hash uri = .ok e') : Step e e'
  | add_attestation (e : Escrow) (a hash : Nat) (uri : List Nat) (e' : Escrow)
      (h : addAttestation e a hash uri = .ok e') : Step e e'
  | init_receipt_nft (e : Escrow) (m : Nat) (e' : Escrow)
      (h : initReceiptNft e m = .ok e') : Step e e'
  | finalize_receipt_nft (e : Escrow) (m : Nat) (b : Bool) (e' : Escrow)
      (h : finalizeReceiptNft e m b = .ok e') : Step e e'
  | update_oracles (a : Nat) (e : Escrow) (os : List Nat) (q : Nat) (e' : Escrow)
      (h : updateOracles a e os q = .ok e') : Step e e'
  | update_seller_dest (e : Escrow) (s : Nat) (e' : Escrow)
      (h : updateSellerDest e s = .ok e') : Step e e'

/-- Finitely many successful instructions applied to an escrow. -/
def Reach (e₀ e : Escrow) : Prop := Relation.ReflTransGen Step e₀ e

/-! ### List and arithmetic helper lemmas -/

theorem milestoneSum_append (ms : List Milestone) (m : Milestone) :
    milestoneSum (ms ++ [m]) = milestoneSum ms + m.amount := by
  induction ms with
  | nil => simp [milestoneSum]
  | cons x t ih => simp [milestoneSum, ih, Nat.add_assoc]

theorem milestoneSum_set {ms : List Milestone} {i : Nat} {m m' : Milestone}
    (hm : ms[i]? = some m) (ha : m'.amount = m.amount) :
    milestoneSum (ms.set i m') = milestoneSum ms := by
  induction ms generalizing i with
  | nil => simp at hm
  | cons x t ih =>
    cases i with
    | zero =>
      simp only [List.getElem?_cons_zero, Option.some.injEq] at hm
      subst hm
      simp [List.set, milestoneSum, ha]
    | succ n =>
      simp only [List.getElem?_cons_succ] at hm
      simp [List.set, milestoneSum, ih hm]

theorem div_add_div_le (x y c : Nat) (hc : 0 < c) : x / c + y / c ≤ (x + y) / c := by
  rw [Nat.le_div_iff_mul_le hc, Nat.add_mul]
  exact Nat.add_le_add (Nat.div_mul_le_self x c) (Nat.div_mul_le_self y c)

theorem mul_bps_le {a b : Nat} (hb : b ≤ 10000) : mul_bps a b ≤ a := by
  unfold mul_bps
  rcases le_or_lt (a * b) U64MAX with h | h
  · rw [min_eq_left h]
    calc a * b / 10000 ≤ a * 10000 / 10000 :=
          Nat.div_le_div_right (Nat.mul_le_mul_left a hb)
      _ = a := Nat.mul_div_cancel a (by norm_num)
  · rw [min_eq_right h.le]
    have hlt : U64MAX < a * 10000 := lt_of_lt_of_le h (Nat.mul_le_mul_left a hb)
    exact le_of_lt ((Nat.div_lt_iff_lt_mul (by norm_num)).mpr hlt)

theorem mul_bps_le_mul_div (a b : Nat) : mul_bps a b ≤ a * b / 10000 :=
  Nat.div_le_div_right (min_le_left _ _)

/-! ### Inversion lemmas: the shape of each handler's successful result -/

theorem createEscrow_ok {cfg : Config} {pid buyer seller amount ix_nonce : Nat}
    {oracles : List Nat} {quorum_m price : Nat} {nft : Bool} {now : Int} {e : Escrow}
    (h : createEscrow cfg pid buyer seller amount ix_nonce oracles quorum_m price nft now
          = .ok e) :
    e = { project_id := pid, buyer := buyer, seller := seller, amount := amount
          fee_bps := cfg.fee_bps, insurance_bps := cfg.insurance_bps
          retention_bps := cfg.retention_bps, late_penalty_bps := 0
          price_snapshot_1e6 := price, quorum_m := quorum_m, oracles := oracles
          state := .Open, created_ts := now, verified_ts := 0, released_ts := 0
          verify_by_ts := 0, deliver_by_ts := 0
          warranty_end_ts := now + cfg.warranty_days * 24 * 60 * 60
          milestones := [], last_evidence_hash := 0
          last_evidence_uri96 := List.replicate 96 0, attestations_count := 0
          cancel_requested_by := 0, dispute_open := false, nft_enabled := nft
          receipt_nft_mint := 0, in_transfer := false, in_progress := false
          retention_released := false, last_ix_nonce := ix_nonce } := by
  unfold createEscrow at h
  split at h
  · split at h
    · split at h
      · split at h
        · injection h with h; exact h.symm
        · exact Except.noConfusion h
      · exact Except.noConfusion h
    · exact Except.noConfusion h
  · exact Except.noConfusion h

theorem setDeadlines_ok {a : Nat} {e : Escrow} {v d : Int} {e' : Escrow}
    (h : setDeadlines a e v d = .ok e') :
    e' = { e with verify_by_ts := v, deliver_by_ts := d } := by
  unfold setDeadlines at h
  split at h
  · injection h with h; exact h.symm
  · exact Except.noConfusion h

theorem markInProgress_ok {e e' : Escrow} (h : markInProgress e = .ok e') :
    e' = { e with in_progress := true } := by
  unfold markInProgress at h
  injection h with h; exact h.symm

theorem expireAndRefund_ok {e : Escrow} {vault : Nat} {now : Int} {p : Escrow × List Xfer}
    (h : expireAndRefund e vault now = .ok p) :
    p = ({ e with state := .Refunded, released_ts := now }, [⟨.ToBuyer, vault⟩]) := by
  unfold expireAndRefund at h
  split at h
  · split at h
    · split at h
      · injection h with h; exact h.symm
      · exact Except.noConfusion h
    · exact Except.noConfusion h
  · exact Except.noConfusion h

theorem verifyDelivery_ok {e : Escrow} {pid : Nat} {cs : List Candidate} {now : Int}
    {e' : Escrow} (h : verifyDelivery e pid cs now = .ok e') :
    e' = { e with state := if e.state = .Open then .Verified else e.state,
                  verified_ts := now } := by
  unfold verifyDelivery at h
  split at h
  · split at h
    · split at h
      · injection h with h; exact h.symm
      · exact Except.noConfusion h
    · exact Except.noConfusion h
  · exact Except.noConfusion h

theorem addMilestone_ok {a : Nat} {e : Escrow} {amt hash : Nat} {e' : Escrow}
    (h : addMilestone a e amt hash = .ok e') :
    e' = { e with milestones := e.milestones ++
            [{ id := e.milestones.length, amount := amt, verified := false,
               released := false, verify_ts := 0, evidence_hash := hash }] } ∧
    min (milestoneSum e.milestones % U64MOD + amt) U64MAX ≤ e.amount := by
  unfold addMilestone at h
  split at h
  · split at h
    · split at h
      case _ hguard =>
        exact ⟨by injection h with h; exact h.symm, hguard⟩
      · exact Except.noConfusion h
    · exact Except.noConfusion h
  · exact Except.noConfusion h

theorem verifyMilestone_ok {e : Escrow} {i : Nat} {cs : List Candidate} {now : Int}
    {e' : Escrow} (h : verifyMilestone e i cs now = .ok e') :
    ∃ m, e.milestones[i]? = some m ∧
      e' = { e with
             milestones := e.milestones.set i { m with verified := true, verify_ts := now },
             state := if e.state = .Open then .Verified else e.state } := by
  unfold verifyMilestone at h
  split at h
  · exact Except.noConfusion h
  case _ m hm =>
    refine ⟨m, hm, ?_⟩
    split at h
    · split at h
      · exact Except.noConfusion h
      · injection h with h; exact h.symm
    · exact Except.noConfusion h

theorem releaseForMilestone_ok {e : Escrow} {vault : Nat} {now : Int} {i : Nat}
    {p : Escrow × List Xfer} (h : releaseForMilestone e vault now i = .ok p) :
    ∃ m, e.milestones[i]? = some m ∧
      p.1 = { e with
        milestones := e.milestones.set i { m with released := true },
        state := .PartiallyReleased, released_ts := now, in_transfer := false } := by
  unfold releaseForMilestone at h
  split at h
  · exact Except.noConfusion h
  case _ m hm =>
    refine ⟨m, hm, ?_⟩
    split at h
    · split at h
      · exact Except.noConfusion h
      · split at h
        · injection h with h; rw [← h]
        · exact Except.noConfusion h
    · exact Except.noConfusion h

theorem releasePayment_ok {e : Escrow} {vault : Nat} {now : Int} {p : Escrow × List Xfer}
    (h : releasePayment e vault now = .ok p) :
    p.1 = { e with state := .Released, released_ts := now, in_transfer := false } := by
  unfold releasePayment at h
  dsimp only at h
  split at h
  · split at h
    · split at h
      · split at h
        · exact Except.noConfusion h
        · injection h with h; rw [← h]
      · exact Except.noConfusion h
    · split at h
      · split at h
        · exact Except.noConfusion h
        · injection h with h; rw [← h]
      · exact Except.noConfusion h
  · exact Except.noConfusion h

theorem releaseRetention_ok {e : Escrow} {vault : Nat} {now : Int} {p : Escrow × List Xfer}
    (h : releaseRetention e vault now = .ok p) :
    p.1 = { e with retention_released := true, in_transfer := false } := by
  unfold releaseRetention at h
  dsimp only at h
  split at h
  · exact Except.noConfusion h
  · split at h
    · exact Except.noConfusion h
    · split at h
      · split at h
        · exact Except.noConfusion h
        · injection h with h; rw [← h]
      · exact Except.noConfusion h

theorem requestCancel_ok {e : Escrow} {a : Nat} {e' : Escrow}
    (h : requestCancel e a = .ok e') :
    e' = { e with cancel_requested_by := a } := by
  unfold requestCancel at h
  split at h
  · split at h
    · injection h with h; exact h.symm
    · exact Except.noConfusion h
  · exact Except.noConfusion h

theorem approveCancel_ok {e : Escrow} {a vault : Nat} {p : Escrow × List Xfer}
    (h : approveCancel e a vault = .ok p) :
    p = ({ e with state := .Refunded }, [⟨.ToBuyer, vault⟩]) := by
  unfold approveCancel at h
  split at h
  · split at h
    · split at h
      · injection h with h; exact h.symm
      · exact Except.noConfusion h
    · exact Except.noConfusion h
  · exact Except.noConfusion h

theorem openDispute_ok {e : Escrow} {a rc hash : Nat} {e' : Escrow}
    (h : openDispute e a rc hash = .ok e') :
    e' = { e with dispute_open := true, state := .Dispute } := by
  unfold openDispute at h
  split at h
  · exact Except.noConfusion h
  · injection h with h; exact h.symm

theorem resolveDispute_ok {e : Escrow} {vault : Nat} {now : Int} {o : DisputeOutcome}
    {pct : Nat} {p : Escrow × List Xfer} (h : resolveDispute e vault now o pct = .ok p) :
    p.1 = { e with
            dispute_open := false,
            state := if 0 < (disputeAmounts o vault pct).2 then .Released else .Refunded,
            released_ts := now, in_transfer := false } := by
  unfold resolveDispute at h
  split at h
  · split at h
    · exact Except.noConfusion h
    · split at h
      · injection h with h; rw [← h]
      · exact Except.noConfusion h
  · exact Except.noConfusion h

theorem attachEvidence_ok {a : Nat} {e : Escrow} {hash : Nat} {uri : List Nat} {e' : Escrow}
    (h : attachEvidence a e hash uri = .ok e') :
    e' = { e with last_evidence_hash := hash, last_evidence_uri96 := pad96 uri } := by
  unfold attachEvidence at h
  injection h with h; exact h.symm

theorem addAttestation_ok {e : Escrow} {a hash : Nat} {uri : List Nat} {e' : Escrow}
    (h : addAttestation e a hash uri = .ok e') :
    e' = { e with attestations_count := min (e.attestations_count + 1) U32MAX } := by
  unfold addAttestation at h
  injection h with h; exact h.symm

theorem initReceiptNft_ok {e : Escrow} {m : Nat} {e' : Escrow}
    (h : initReceiptNft e m = .ok e') :
    e' = { e with receipt_nft_mint := m } := by
  unfold initReceiptNft at h
  split at h
  · injection h with h; exact h.symm
  · exact Except.noConfusion h

theorem finalizeReceiptNft_ok {e : Escrow} {m : Nat} {b : Bool} {e' : Escrow}
    (h : finalizeReceiptNft e m b = .ok e') : e' = e := by
  unfold finalizeReceiptNft at h
  split at h
  · split at h
    · split at h
      · injection h with h; exact h.symm
      · exact Except.noConfusion h
    · exact Except.noConfusion h
  · exact Except.noConfusion h

theorem updateOracles_ok {a : Nat} {e : Escrow} {os : List Nat} {q : Nat} {e' : Escrow}
    (h : updateOracles a e os q = .ok e') :
    e' = { e with oracles := os, quorum_m := q } := by
  unfold updateOracles at h
  split at h
  · split at h
    · injection h with h; exact h.symm
    · exact Except.noConfusion h
  · exact Except.noConfusion h

theorem updateSellerDest_ok {e : Escrow} {s : Nat} {e' : Escrow}
    (h : updateSellerDest e s = .ok e') : e' = { e with seller := s } := by
  unfold updateSellerDest at h
  injection h with h; exact h.symm

/-! ### Facts preserved by every successful instruction -/

/-- Per-step accounting facts: the escrow total is never mutated; the
reentrancy flag ends unchanged-or-clear; `retention_released` is never reset;
the milestone amount sum changes only by an `add_milestone` insertion that
passed its saturating-sum check. -/
theorem step_fields {e e' : Escrow} (h : Step e e') :
    e'.amount = e.amount ∧
    (e'.in_transfer = e.in_transfer ∨ e'.in_transfer = false) ∧
    (e.retention_released = true → e'.retention_released = true) ∧
    (milestoneSum e'.milestones = milestoneSum e.milestones ∨
      ∃ a, milestoneSum e'.milestones = milestoneSum e.milestones + a ∧
        min (milestoneSum e.milestones % U64MOD + a) U64MAX ≤ e.amount) := by
  cases h with
  | set_deadlines a e v d e' h =>
    rw [setDeadlines_ok h]; exact ⟨rfl, .inl rfl, fun h => h, .inl rfl⟩
  | mark_in_progress e e' h =>
    rw [markInProgress_ok h]; exact ⟨rfl, .inl rfl, fun h => h, .inl rfl⟩
  | expire_and_refund e vault now p h =>
    rw [expireAndRefund_ok h]; exact ⟨rfl, .inl rfl, fun h => h, .inl rfl⟩
  | verify_delivery e pid cs now e' h =>
    rw [verifyDelivery_ok h]; exact ⟨rfl, .inl rfl, fun h => h, .inl rfl⟩
  | add_milestone a e amt h' e' h =>
    obtain ⟨he, hguard⟩ := addMilestone_ok h
    rw [he]
    exact ⟨rfl, .inl rfl, fun h => h, .inr ⟨amt, milestoneSum_append _ _, hguard⟩⟩
  | verify_milestone e i cs now e' h =>
    obtain ⟨m, hm, he⟩ := verifyMilestone_ok h
    rw [he]
    exact ⟨rfl, .inl rfl, fun h => h, .inl (milestoneSum_set hm rfl)⟩
  | release_for_milestone e vault now i p h =>
    obtain ⟨m, hm, he⟩ := releaseForMilestone_ok h
    rw [he]
    exact ⟨rfl, .inr rfl, fun h => h, .inl (milestoneSum_set hm rfl)⟩
  | release_payment e vault now p h =>
    rw [releasePayment_ok h]; exact ⟨rfl, .inr rfl, fun h => h, .inl rfl⟩
  | release_retention e vault now p h =>
    rw [releaseRetention_ok h]; exact ⟨rfl, .inr rfl, fun _ => rfl, .inl rfl⟩
  | request_cancel e a e' h =>
    rw [requestCancel_ok h]; exact ⟨rfl, .inl rfl, fun h => h, .inl rfl⟩
  | approve_cancel e a vault p h =>
    rw [approveCancel_ok h]; exact ⟨rfl, .inl rfl, fun h => h, .inl rfl⟩
  | open_dispute e a rc hash e' h =>
    rw [openDispute_ok h]; exact ⟨rfl, .inl rfl, fun h => h, .inl rfl⟩
  | resolve_dispute e vault now o pct p h =>
    rw [resolveDispute_ok h]; exact ⟨rfl, .inr rfl, fun h => h, .inl rfl⟩
  | attach_evidence a e hash uri e' h =>
    rw [attachEvidence_ok h]; exact ⟨rfl, .inl rfl, fun h => h, .inl rfl⟩
  | add_attestation e a hash uri e' h =>
    rw [addAttestation_ok h]; exact ⟨rfl, .inl rfl, fun h => h, .inl rfl⟩
  | init_receipt_nft e m e' h =>
    rw [initReceiptNft_ok h]; exact ⟨rfl, .inl rfl, fun h => h, .inl rfl⟩
  | finalize_receipt_nft e m b e' h =>
    rw [finalizeReceiptNft_ok h]; exact ⟨rfl, .inl rfl, fun h => h, .inl rfl⟩
  | update_oracles a e os q e' h =>
    rw [updateOracles_ok h]; exact ⟨rfl, .inl rfl, fun h => h, .inl rfl⟩
  | update_seller_dest e s e' h =>
    rw [updateSellerDest_ok h]; exact ⟨rfl, .inl rfl, fun h => h, .inl rfl⟩

/-- The escrow total is constant along every execution. -/
theorem reach_amount {e₀ e : Escrow} (h : Reach e₀ e) : e.amount = e₀.amount := by
  induction h with
  | refl => rfl
  | tail _ step ih => rw [(step_fields step).1, ih]

/-- The reentrancy flag is clear in every state reachable from a state with a
clear flag (`in_transfer` is false at the start and end of every operation). -/
theorem reach_in_transfer {e₀ e : Escrow} (h0 : e₀.in_transfer = false) (h : Reach e₀ e) :
    e.in_transfer = false := by
  induction h with
  | refl => exact h0
  | tail _ step ih =>
    rcases (step_fields step).2.1 with heq | hfalse
    · rw [heq, ih]
    · exact hfalse

/-- As long as the escrow total is strictly below `u64::MAX`, the saturating
insertion check keeps the milestone amount sum at or below the total. -/
theorem reach_milestoneSum {e₀ e : Escrow} (h0 : milestoneSum e₀.milestones ≤ e₀.amount)
    (hA : e₀.amount < U64MAX) (h : Reach e₀ e) :
    milestoneSum e.milestones ≤ e.amount := by
  induction h with
  | refl => exact h0
  | @tail b c hr step ih =>
    obtain ⟨hamt, -, -, hsum⟩ := step_fields step
    have hbamt : b.amount = e₀.amount := reach_amount hr
    rcases hsum with heq | ⟨a, heq, hguard⟩
    · rw [hamt, heq]; exact ih
    · rw [hamt, heq]
      have hlt : milestoneSum b.milestones < U64MOD :=
        lt_of_le_of_lt ih (by rw [hbamt]; exact lt_trans hA (by norm_num [U64MAX, U64MOD]))
      rw [Nat.mod_eq_of_lt hlt] at hguard
      rcases le_or_lt (milestoneSum b.milestones + a) U64MAX with hle | hlt2
      · rwa [min_eq_left hle] at hguard
      · rw [min_eq_right hlt2.le] at hguard
        exact absurd (lt_of_le_of_lt hguard (by rw [hbamt]; exact hA)) (lt_irrefl _)

/-! ### Concrete fixtures used by counterexamples and witnesses -/

/-- A small config snapshot: 2.5% fee, 1% insurance, 5% retention, one-day
warranty. -/
def cfg0 : Config :=
  { fee_bps := 250, insurance_bps := 100, retention_bps := 500, warranty_days := 1 }

/-- The escrow produced by
`createEscrow cfg0 1 10 20 100 1 [1, 2] 2 0 false 0`:
buyer `10`, seller `20`, total `100`, oracle set `[1, 2]`, quorum `2`. -/
def escrowA : Escrow :=
  { project_id := 1, buyer := 10, seller := 20, amount := 100
    fee_bps := 250, insurance_bps := 100, retention_bps := 500, late_penalty_bps := 0
    price_snapshot_1e6 := 0, quorum_m := 2, oracles := [1, 2]
    state := .Open, created_ts := 0, verified_ts := 0, released_ts := 0
    verify_by_ts := 0, deliver_by_ts := 0, warranty_end_ts := 86400
    milestones := [], last_evidence_hash := 0
    last_evidence_uri96 := List.replicate 96 0, attestations_count := 0
    cancel_requested_by := 0, dispute_open := false, nft_enabled := false
    receipt_nft_mint := 0, in_transfer := false, in_progress := false
    retention_released := false, last_ix_nonce := 1 }

/-- `escrowA` moved into `Dispute` with one verified, unreleased milestone of
`50`. -/
def escrowB : Escrow :=
  { escrowA with state := .Dispute, milestones := [⟨0, 50, true, false, 0, 0⟩] }

/-- `escrowA` with one already-released milestone of `50`. -/
def escrowC : Escrow :=
  { escrowA with milestones := [⟨0, 50, true, true, 0, 0⟩] }

/-- A concrete execution: create (buyer `10`, seller `20`, vault `100`), the
buyer requests cancellation, the seller approves it.  Ends `Refunded` with no
dispute ever opened. -/
def c3chain : Except EscrowError Escrow :=
  ((createEscrow cfg0 1 10 20 100 1 [1] 1 0 false 0).bind
      (fun e => requestCancel e 10)).bind
    (fun e => (approveCancel e 20 100).map Prod.fst)

/-- A concrete execution at the numeric cap: create with
`amount = u64::MAX`, then add two milestones of `u64::MAX` each; the second
insertion's saturating check `min (sum + amt) u64::MAX ≤ amount` passes even
though the true sum now exceeds the total. -/
def c8chain : Except EscrowError Escrow :=
  ((createEscrow cfg0 1 10 20 U64MAX 1 [1] 1 0 false 0).bind
      (fun e => addMilestone 10 e U64MAX 0)).bind
    (fun e => addMilestone 10 e U64MAX 0)

/-! ### C1 — quorum counting -/

/-- C1 counterexample: the claim says a given oracle identity contributes at
most one vote no matter how often it is duplicated in the candidate list, and
that fewer than `M` distinct registered-oracle signers can never reach quorum
`M`.  On the code, `count_quorum_votes` counts one vote per candidate-list
entry: on the freshly created escrow with oracle set `[1, 2]` and threshold
`2`, the list `[⟨1, true⟩, ⟨1, true⟩]` (the single oracle identity `1`
duplicated) counts `2` votes and `verify_delivery` succeeds. -/
theorem quorum_duplicate_signer_reaches_quorum :
    (List.replicate 2 (⟨1, true⟩ : Candidate)) = [⟨1, true⟩, ⟨1, true⟩] ∧
    ((createEscrow cfg0 1 10 20 100 1 [1, 2] 2 0 false 0).map
      (fun e => count_quorum_votes e (List.replicate 2 ⟨1, true⟩))) = .ok 2 ∧
    ((createEscrow cfg0 1 10 20 100 1 [1, 2] 2 0 false 0).map
      (fun e => e.quorum_m)) = .ok 2 ∧
    (((createEscrow cfg0 1 10 20 100 1 [1, 2] 2 0 false 0).bind
      (fun e => verifyDelivery e 1 (List.replicate 2 ⟨1, true⟩) 5)).map
      (fun e => e.state)) = .ok .Verified :=
  ⟨rfl, rfl, rfl, rfl⟩

/-- C1 (amended): `count_quorum_votes` counts one vote per candidate-list
ENTRY that is a signer and matches some non-default oracle slot — a single
entry matching several slots still counts once (the inner `break`), but the
same oracle identity duplicated in the candidate list contributes one vote per
occurrence (the count is additive over list concatenation), so a list with
fewer than `M` distinct registered-oracle signers can reach quorum `M` by
duplication. -/
theorem quorum_counts_per_entry (e : Escrow) (cs : List Candidate) :
    count_quorum_votes e cs =
      cs.countP (fun ai => ai.is_signer && oracleMatch e.oracles ai.key) ∧
    (∀ ds, count_quorum_votes e (cs ++ ds) =
      count_quorum_votes e cs + count_quorum_votes e ds) := by
  have aux : ∀ (l : List Candidate) (n : Nat),
      List.foldl (fun votes ai =>
          if ai.is_signer && oracleMatch e.oracles ai.key then votes + 1 else votes) n l
        = n + l.countP (fun ai => ai.is_signer && oracleMatch e.oracles ai.key) := by
    intro l
    induction l with
    | nil => intro n; simp
    | cons x t ih =>
      intro n
      by_cases hx : (x.is_signer && oracleMatch e.oracles x.key) = true
      · simp only [List.foldl_cons, List.countP_cons, hx, if_pos]
        rw [ih]
        omega
      · simp only [List.foldl_cons, List.countP_cons, hx, if_neg, if_false]
        rw [ih]
        simp [hx]
  constructor
  · unfold count_quorum_votes
    rw [aux cs 0, Nat.zero_add]
  · intro ds
    unfold count_quorum_votes
    rw [aux, aux, aux, List.countP_append]
    omega

/-! ### C2 — approve_cancel authorization -/

/-- C2 counterexample: the claim says `approve_cancel` succeeds only for the
buyer-or-seller counterparty and that any other caller gets an authorization
error.  On the code, a reachable escrow (created, then cancel requested by the
buyer `10`) is successfully cancel-approved by the unrelated caller `99`
(neither buyer `10` nor seller `20`), refunding the whole vault to the buyer
and setting the state to `Refunded`. -/
theorem approve_cancel_third_party_succeeds :
    ((((createEscrow cfg0 1 10 20 100 1 [1] 1 0 false 0).bind
        (fun e => requestCancel e 10)).bind
        (fun e => approveCancel e 99 100)).map
        (fun p => (p.1.state, p.2))) = .ok (.Refunded, [⟨.ToBuyer, 100⟩]) ∧
    ((createEscrow cfg0 1 10 20 100 1 [1] 1 0 false 0).map
      (fun e => decide (99 = e.buyer ∨ 99 = e.seller))) = .ok false :=
  ⟨rfl, rfl⟩

/-- C2 (amended): `approve_cancel` succeeds exactly when a cancel is pending
and the caller differs from the recorded requester and the vault balance is
non-zero — the handler performs no buyer/seller membership check, so any
identity other than the requester may approve; on success the full current
vault balance is the single transfer to the buyer and the state becomes
`Refunded`. -/
theorem approve_cancel_requires_only_distinct_caller (e : Escrow) (actor vault : Nat) :
    ((approveCancel e actor vault).isOk = true ↔
      (e.cancel_requested_by ≠ 0 ∧ actor ≠ e.cancel_requested_by ∧ 0 < vault)) ∧
    (∀ e' xf, approveCancel e actor vault = .ok (e', xf) →
      xf = [⟨.ToBuyer, vault⟩] ∧ e'.state = .Refunded) := by
  constructor
  · constructor
    · intro h
      unfold approveCancel at h
      split at h
      · rename_i h1
        split at h
        · rename_i h2
          split at h
          · rename_i h3
            exact ⟨h1, h2, h3⟩
          · simp [Except.isOk, Except.toBool] at h
        · simp [Except.isOk, Except.toBool] at h
      · simp [Except.isOk, Except.toBool] at h
    · rintro ⟨h1, h2, h3⟩
      unfold approveCancel
      rw [if_pos h1, if_pos h2, if_pos h3]
      rfl
  · intro e' xf h
    have h2 := approveCancel_ok h
    have h3 : e' = { e with state := .Refunded } := congrArg Prod.fst h2
    have h4 : xf = [(⟨.ToBuyer, vault⟩ : Xfer)] := congrArg Prod.snd h2
    exact ⟨h4, by rw [h3]⟩

/-- Witness for C2: on a concrete escrow whose cancel was requested by the
buyer `10`, caller `99` with vault `100` satisfies the success condition. -/
theorem approve_cancel_requires_only_distinct_caller_witness :
    (approveCancel { escrowA with cancel_requested_by := 10 } 99 100).isOk = true :=
  (approve_cancel_requires_only_distinct_caller
      { escrowA with cancel_requested_by := 10 } 99 100).1.mpr
    ⟨by decide, by decide, by decide⟩

/-! ### C3 — open_dispute and lifecycle states -/

/-- C3 counterexample: the claim says `Dispute` can only be entered from
`Open` or `PartiallyReleased`, and that `open_dispute` fails on `Released` or
`Refunded` escrows.  On the code, a reachable `Refunded` escrow (created,
cancel requested by buyer, approved by seller) has `open_dispute` succeed and
move it to `Dispute`. -/
theorem open_dispute_from_refunded_succeeds :
    c3chain.map (fun e => e.state) = .ok .Refunded ∧
    (c3chain.bind (fun e => openDispute e 10 0 0)).isOk = true ∧
    ((c3chain.bind (fun e => openDispute e 10 0 0)).map (fun e => e.state)) = .ok .Dispute :=
  ⟨rfl, rfl, rfl⟩

/-- C3 (amended): `open_dispute` checks only the `dispute_open` flag — it
succeeds in every lifecycle state (including the terminal `Released` and
`Refunded`) whenever no dispute is already open, and on success it sets
`dispute_open` and overwrites the state with `Dispute`. -/
theorem open_dispute_any_state (e : Escrow) (actor rc hash : Nat) :
    ((openDispute e actor rc hash).isOk = true ↔ e.dispute_open = false) ∧
    (∀ e', openDispute e actor rc hash = .ok e' →
      e'.dispute_open = true ∧ e'.state = .Dispute) := by
  constructor
  · constructor
    · intro h
      unfold openDispute at h
      split at h
      · simp [Except.isOk, Except.toBool] at h
      · rename_i h1
        cases hb : e.dispute_open with
        | false => rfl
        | true => exact absurd hb h1
    · intro h
      unfold openDispute
      rw [if_neg (by rw [h]; simp)]
      rfl
  · intro e' h
    rw [openDispute_ok h]
    exact ⟨rfl, rfl⟩

/-- Witness for C3: `open_dispute` succeeds on a concrete escrow that is
already `Refunded` (dispute flag clear). -/
theorem open_dispute_any_state_witness :
    (openDispute { escrowA with state := .Refunded } 0 0 0).isOk = true :=
  (open_dispute_any_state { escrowA with state := .Refunded } 0 0 0).1.mpr rfl

/-! ### C4 — set_deadlines authorization -/

/-- C4: the claim says `set_deadlines` requires the caller to be the escrow's
buyer or seller and fails with an authorization error otherwise.  The account
context is named `BuyerOrSeller`, documenting that intent, but declares
`actor` as an unconstrained signer and the handler body never reads it: on a
freshly created `Open` escrow (buyer `10`, seller `20`) the unrelated caller
`99` successfully sets both deadlines.  The code contradicts its own context
naming, so the claim is recorded as a code bug, evidenced here by evaluation. -/
theorem set_deadlines_ignores_caller_role :
    (((createEscrow cfg0 1 10 20 100 1 [1] 1 0 false 0).bind
        (fun e => setDeadlines 99 e 50 60)).map
        (fun e => (e.verify_by_ts, e.deliver_by_ts))) = .ok (50, 60) ∧
    ((createEscrow cfg0 1 10 20 100 1 [1] 1 0 false 0).map
      (fun e => decide (99 = e.buyer ∨ 99 = e.seller))) = .ok false :=
  ⟨rfl, rfl⟩

/-! ### C5 — release_for_milestone preconditions -/

/-- C5: `release_for_milestone` succeeds exactly when the milestone id is in
range, the milestone is verified and unreleased, the reentrancy flag is clear,
and the vault balance covers the milestone amount — the escrow's lifecycle
state does not appear in the condition (the iff holds for every `e.state`,
including `Dispute`, `Released` and `Refunded`), and every success overwrites
the state with `PartiallyReleased`. -/
theorem release_for_milestone_no_state_gate (e : Escrow) (vault : Nat) (now : Int)
    (milestone_id : Nat) :
    ((releaseForMilestone e vault now milestone_id).isOk = true ↔
      (∃ m, e.milestones[milestone_id]? = some m ∧ m.verified = true ∧ m.released = false ∧
        e.in_transfer = false ∧ m.amount ≤ vault)) ∧
    (∀ e' xf, releaseForMilestone e vault now milestone_id = .ok (e', xf) →
      e'.state = .PartiallyReleased) := by
  constructor
  · constructor
    · intro h
      unfold releaseForMilestone at h
      split at h
      · simp [Except.isOk, Except.toBool] at h
      · rename_i m hm
        split at h
        · rename_i hvr
          rw [Bool.and_eq_true, Bool.not_eq_true'] at hvr
          split at h
          · simp [Except.isOk, Except.toBool] at h
          · rename_i hit
            split at h
            · rename_i hbal
              exact ⟨m, hm, hvr.1, hvr.2, Bool.not_eq_true _ ▸ eq_false_of_ne_true hit, hbal⟩
            · simp [Except.isOk, Except.toBool] at h
        · simp [Except.isOk, Except.toBool] at h
    · rintro ⟨m, hm, hv, hr, hit, hbal⟩
      unfold releaseForMilestone
      rw [hm]
      simp [hv, hr, hit, hbal, Except.isOk, Except.toBool]
  · intro e' xf h
    obtain ⟨m, hm, he⟩ := releaseForMilestone_ok h
    calc e'.state = (e', xf).1.state := rfl
      _ = EscrowState.PartiallyReleased := by rw [he]

/-- Witness for C5: the success condition is met on a concrete escrow that is
in `Dispute` with a verified, unreleased milestone of `50` and vault `100`. -/
theorem release_for_milestone_no_state_gate_witness :
    (releaseForMilestone escrowB 100 0 0).isOk = true :=
  (release_for_milestone_no_state_gate escrowB 100 0 0).1.mpr
    ⟨⟨0, 50, true, false, 0, 0⟩, rfl, rfl, rfl, rfl, by norm_num⟩

/-! ### C6 — dispute split arithmetic -/

/-- C6: in the `Split` outcome of `resolve_dispute`, for every vault total and
every `seller_pct_bps ≤ 10000` the raw split is exact —
`buyer_amt + seller_gross = total` with no rounding gap, `buyer_amt` is the
exact complement `total - mul_bps total pct` (independent of the fee
parameters), and the net seller amount `seller_gross - (fee + insurance)`
equals `seller_gross - fee - insurance`, so fee and insurance are deducted
only from the seller-bound portion. -/
theorem dispute_split_exact (total pct fb ib : Nat) (hpct : pct ≤ 10000) :
    (disputeAmounts .Split total pct).1 + (disputeAmounts .Split total pct).2 = total ∧
    (disputeAmounts .Split total pct).1 = total - mul_bps total pct ∧
    (disputeAmounts .Split total pct).2 = mul_bps total pct ∧
    (disputeAmounts .Split total pct).2 -
        ((calc_fee_splits (disputeAmounts .Split total pct).2 fb ib).1 +
          (calc_fee_splits (disputeAmounts .Split total pct).2 fb ib).2) =
      (disputeAmounts .Split total pct).2 -
          (calc_fee_splits (disputeAmounts .Split total pct).2 fb ib).1 -
          (calc_fee_splits (disputeAmounts .Split total pct).2 fb ib).2 := by
  refine ⟨?_, rfl, rfl, (Nat.sub_sub _ _ _).symm⟩
  have hle : mul_bps total pct ≤ total := mul_bps_le hpct
  simp only [disputeAmounts]
  exact Nat.sub_add_cancel hle

/-- Witness for C6: at total `1000000` and a 25% split the raw split is exact. -/
theorem dispute_split_exact_witness :
    (disputeAmounts .Split 1000000 2500).1 + (disputeAmounts .Split 1000000 2500).2
      = 1000000 :=
  (dispute_split_exact 1000000 2500 250 100 (by norm_num)).1

/-! ### C7 — fee arithmetic never exceeds principal -/

/-- C7: for every amount and every `fee_bps`, `insurance_bps` with
`fee_bps + insurance_bps ≤ 10000`, the two saturating basis-point cuts sum to
at most the amount, and in particular (for a `u64` amount) the sum stays below
`2^64`, so the `fee_cut + insurance_cut` addition never overflows. -/
theorem fee_plus_insurance_le_principal (amount fee_bps insurance_bps : Nat)
    (hsum : fee_bps + insurance_bps ≤ 10000) :
    mul_bps amount fee_bps + mul_bps amount insurance_bps ≤ amount ∧
    (amount < U64MOD → mul_bps amount fee_bps + mul_bps amount insurance_bps < U64MOD) := by
  have key : mul_bps amount fee_bps + mul_bps amount insurance_bps ≤ amount := by
    calc mul_bps amount fee_bps + mul_bps amount insurance_bps
        ≤ amount * fee_bps / 10000 + amount * insurance_bps / 10000 :=
          Nat.add_le_add (mul_bps_le_mul_div _ _) (mul_bps_le_mul_div _ _)
      _ ≤ (amount * fee_bps + amount * insurance_bps) / 10000 :=
          div_add_div_le _ _ _ (by norm_num)
      _ = amount * (fee_bps + insurance_bps) / 10000 := by rw [Nat.mul_add]
      _ ≤ amount * 10000 / 10000 :=
          Nat.div_le_div_right (Nat.mul_le_mul_left amount hsum)
      _ = amount := Nat.mul_div_cancel amount (by norm_num)
  exact ⟨key, fun h => lt_of_le_of_lt key h⟩

/-- Witness for C7: the spec's scenario `amount = 1000000`, `fee = 250` bps,
`insurance = 100` bps — the cuts (`25000` and `10000`) stay within principal. -/
theorem fee_plus_insurance_le_principal_witness :
    mul_bps 1000000 250 + mul_bps 1000000 100 ≤ 1000000 ∧
    mul_bps 1000000 250 = 25000 ∧ mul_bps 1000000 100 = 10000 :=
  ⟨(fee_plus_insurance_le_principal 1000000 250 100 (by norm_num)).1, rfl, rfl⟩

/-! ### C10 — releasing an already-released milestone -/

/-- C10: `release_for_milestone` on a milestone whose `released` flag is
already set always fails with the `MilestoneNotReleasable` state error; the
check precedes the reentrancy guard, the balance check and every transfer, and
by the atomic-rollback convention the error result carries no state change and
no transfers. -/
theorem release_already_released_rejected (e : Escrow) (vault : Nat) (now : Int)
    (milestone_id : Nat) (m : Milestone) (hm : e.milestones[milestone_id]? = some m)
    (hrel : m.released = true) :
    releaseForMilestone e vault now milestone_id = .error .MilestoneNotReleasable := by
  unfold releaseForMilestone
  rw [hm]
  simp [hrel]

/-- Witness for C10: concrete escrow whose milestone `0` is already released. -/
theorem release_already_released_rejected_witness :
    releaseForMilestone escrowC 100 0 0 = .error .MilestoneNotReleasable :=
  release_already_released_rejected escrowC 100 0 0 ⟨0, 50, true, true, 0, 0⟩ rfl rfl

/-! ### C8 — milestone sum invariant -/

/-- C8 counterexample: the claim says the true milestone amount sum can never
exceed the escrow total on a reachable escrow.  Because the insertion check
uses `saturating_add`, an escrow created with `amount = u64::MAX` accepts two
milestones of `u64::MAX` each: the reachable state `c8chain` has milestone
sum `2 * u64::MAX`, strictly above its total. -/
theorem milestone_sum_overflows_at_cap :
    c8chain.map (fun e => e.amount) = .ok U64MAX ∧
    c8chain.map (fun e => milestoneSum e.milestones) = .ok (U64MAX + U64MAX) ∧
    c8chain.map (fun e => decide (e.amount < milestoneSum e.milestones)) = .ok true :=
  ⟨rfl, rfl, rfl⟩

/-- C8 (amended): for every escrow created with `amount < u64::MAX` (so the
saturating insertion check cannot mask an overflow) and every state reachable
from it, the milestone amount sum is at most the escrow total; an
`add_milestone` call whose amount would push the sum above the total can never
succeed, and when the lifecycle-state and capacity preconditions hold it fails
with precisely the `MilestoneOverTotal` validation error (failure leaves the
account unchanged by atomic rollback).  At `amount = u64::MAX` the saturating
check can admit a true sum above the total. -/
theorem milestone_sum_invariant_below_cap
    (cfg : Config) (pid buyer seller amount nonce : Nat) (oracles : List Nat)
    (q price : Nat) (nft : Bool) (cnow : Int) (e₀ e : Escrow)
    (hcreate : createEscrow cfg pid buyer seller amount nonce oracles q price nft cnow
      = .ok e₀)
    (hcap : amount < U64MAX) (hreach : Reach e₀ e) :
    milestoneSum e.milestones ≤ e.amount ∧
    (∀ actor amt hash e', e.amount < milestoneSum e.milestones + amt →
      addMilestone actor e amt hash ≠ .ok e') ∧
    (∀ actor amt hash, (e.state = .Open ∨ e.state = .Verified) →
      e.milestones.length < MAX_MILESTONES →
      e.amount < milestoneSum e.milestones + amt →
      addMilestone actor e amt hash = .error .MilestoneOverTotal) := by
  have he₀ := createEscrow_ok hcreate
  have h0 : milestoneSum e₀.milestones ≤ e₀.amount := by rw [he₀]; simp [milestoneSum]
  have hA : e₀.amount < U64MAX := by rw [he₀]; exact hcap
  have hinv : milestoneSum e.milestones ≤ e.amount := reach_milestoneSum h0 hA hreach
  have hamt : e.amount = amount := by rw [reach_amount hreach, he₀]
  have hmod : milestoneSum e.milestones % U64MOD = milestoneSum e.milestones :=
    Nat.mod_eq_of_lt (lt_of_le_of_lt hinv
      (by rw [hamt]; exact lt_trans hcap (by norm_num [U64MAX, U64MOD])))
  have hguardfail : ∀ amt, e.amount < milestoneSum e.milestones + amt →
      ¬ (min (milestoneSum e.milestones % U64MOD + amt) U64MAX ≤ e.amount) := by
    intro amt hover hle
    rw [hmod] at hle
    rcases le_or_lt (milestoneSum e.milestones + amt) U64MAX with h1 | h1
    · rw [min_eq_left h1] at hle
      exact absurd hover (not_lt_of_le hle)
    · rw [min_eq_right h1.le, hamt] at hle
      exact absurd (lt_of_le_of_lt hle hcap) (lt_irrefl _)
  refine ⟨hinv, ?_, ?_⟩
  · intro actor amt hash e' hover hok
    obtain ⟨-, hguard⟩ := addMilestone_ok hok
    exact hguardfail amt hover hguard
  · intro actor amt hash hstate hlen hover
    unfold addMilestone
    rw [if_pos hstate, if_pos hlen, if_neg (hguardfail amt hover)]

/-- Witness for C8: the invariant holds at a concrete creation
(`amount = 100 < u64::MAX`) with the empty reachability trace. -/
theorem milestone_sum_invariant_below_cap_witness :
    milestoneSum escrowA.milestones ≤ escrowA.amount :=
  (milestone_sum_invariant_below_cap cfg0 1 10 20 100 1 [1, 2] 2 0 false 0 escrowA escrowA
    rfl (by norm_num [U64MAX]) Relation.ReflTransGen.refl).1

/-! ### C9 — retention released exactly once -/

/-- C9: on every reachable escrow, `release_retention` before
`warranty_end_ts` fails with the warranty-timing error; at or after it, with a
vault balance covering the retention amount, it succeeds and sets
`retention_released`; once the flag is set every further call fails with
`RetentionAlreadyReleased`; and no instruction ever resets the flag, so the
false→true transition happens at most once per execution.  (Reachability
supplies the clear reentrancy flag that the success path's guard needs.) -/
theorem release_retention_once
    (cfg : Config) (pid buyer seller amount nonce : Nat) (oracles : List Nat)
    (q price : Nat) (nft : Bool) (cnow : Int) (e₀ e : Escrow) (vault : Nat) (now : Int)
    (hcreate : createEscrow cfg pid buyer seller amount nonce oracles q price nft cnow
      = .ok e₀)
    (hreach : Reach e₀ e) :
    (e.retention_released = false → now < e.warranty_end_ts →
      releaseRetention e vault now = .error .WarrantyNotEnded) ∧
    (e.retention_released = false → e.warranty_end_ts ≤ now →
      calc_retention e.amount e.retention_bps ≤ vault →
      ∃ e' xf, releaseRetention e vault now = .ok (e', xf) ∧
        e'.retention_released = true) ∧
    (e.retention_released = true →
      releaseRetention e vault now = .error .RetentionAlreadyReleased) ∧
    (∀ e', Step e e' → e.retention_released = true → e'.retention_released = true) := by
  have hit : e.in_transfer = false := by
    have he₀ := createEscrow_ok hcreate
    exact reach_in_transfer (by rw [he₀]) hreach
  refine ⟨?_, ?_, ?_, ?_⟩
  · intro hrr hnow
    unfold releaseRetention
    rw [if_neg (by rw [hrr]; exact Bool.false_ne_true), if_pos hnow]
  · intro hrr hnow hbal
    unfold releaseRetention
    rw [if_neg (by rw [hrr]; exact Bool.false_ne_true), if_neg (not_lt.mpr hnow)]
    dsimp only
    rw [if_pos hbal, if_neg (by rw [hit]; exact Bool.false_ne_true)]
    exact ⟨_, _, rfl, rfl⟩
  · intro hrr
    unfold releaseRetention
    rw [if_pos hrr]
  · intro e' hstep hrr
    exact (step_fields hstep).2.2.1 hrr

/-- Witness for C9: on the freshly created `escrowA` (warranty ends at
`86400`), calling at time `0` fails with the warranty-timing error. -/
theorem release_retention_once_witness :
    releaseRetention escrowA 0 0 = .error .WarrantyNotEnded :=
  (release_retention_once cfg0 1 10 20 100 1 [1, 2] 2 0 false 0 escrowA escrowA 0 0
    rfl Relation.ReflTransGen.refl).1 rfl (by decide)

end ConstructionEscrow
